import Mathlib

/-! Verification of the orchestrator core of the my-browser repository.

The development embeds the SQLite-backed task/agent state
(src/orchestrator/state.py), the circuit breaker
(src/orchestrator/circuit_breaker.py), the task catalog loader
(src/orchestrator/task_queue.py) and the coordinator fix cycle
(src/orchestrator/main.py) as pure Lean functions.  Database tables are
modelled as Lean lists of rows; the SQL clause `ORDER BY id` is modelled by
insertion sort on the id field; `datetime.now().isoformat()` timestamps are
passed in as explicit string arguments; values read from the module
src/config.py are passed as explicit arguments (their configured values are
given as constants below).  A SQL statement that would raise in Python
(fetching a column of a missing row) is modelled with `Option`. -/

namespace Orch

/-- Enum `TaskStatus` from src/orchestrator/state.py. -/
inductive TaskStatus
  | pending
  | in_progress
  | in_qa
  | blocked
  | completed
deriving DecidableEq, Repr

/-- Enum `AgentStatus` from src/orchestrator/state.py. -/
inductive AgentStatus
  | idle
  | working
  | waiting_qa
deriving DecidableEq, Repr

/-- Enum `SystemStatus` from src/orchestrator/circuit_breaker.py. -/
inductive SystemStatus
  | running
  | needs_human
  | budget_exceeded
  | completed
deriving DecidableEq, Repr

/-- Row of the `tasks` table (dataclass `Task` in src/orchestrator/state.py).
The JSON-encoded `dependencies` column is modelled decoded, as the list of
dependency task ids. -/
structure Task where
  id : Nat
  name : String
  component : String
  description : String
  status : TaskStatus
  assigned_agent : Option String
  retries : Nat
  dependencies : List Nat
  created_at : String
  completed_at : Option String
deriving DecidableEq, Repr

/-- Row of the `agents` table (dataclass `Agent` in
src/orchestrator/state.py); `conversation_history` is kept as its raw JSON
text, an opaque blob for the orchestration logic. -/
structure Agent where
  id : String
  agent_type : String
  status : AgentStatus
  current_task_id : Option Nat
  total_tokens_used : Nat
  conversation_history : String
deriving DecidableEq, Repr

/-- Configured value `MAX_TASK_RETRIES` from src/config.py. -/
def MAX_TASK_RETRIES : Nat := 3

/-- Configured value `MAX_BLOCKED_TASKS` from src/config.py. -/
def MAX_BLOCKED_TASKS : Nat := 3

/-- Configured value `MAX_TOKENS_BUDGET` from src/config.py. -/
def MAX_TOKENS_BUDGET : Nat := 2000000

/-- Configured value `CHECKPOINT_INTERVAL` from src/config.py. -/
def CHECKPOINT_INTERVAL : Nat := 10

/-- Model of the SQL clause `ORDER BY id ASC` over the `tasks` table.  The
table keeps rows in insertion (rowid) order; sorting by the id column is a
stable sort on `Task.id`. -/
def sortById (rows : List Task) : List Task :=
  List.insertionSort (fun a b : Task => a.id ≤ b.id) rows

/-- Method `StateManager.get_all_tasks`:
`SELECT * FROM tasks ORDER BY id`. -/
def get_all_tasks (tasks : List Task) : List Task :=
  sortById tasks

/-- Method `StateManager.get_task`:
`SELECT * FROM tasks WHERE id = ?`, `None` when the row is missing.
The id column is the primary key, so the first match is the only match. -/
def get_task (tasks : List Task) (task_id : Nat) : Option Task :=
  tasks.find? (fun t => t.id == task_id)

/-- Method `StateManager._dependencies_met`: empty dependency list is met;
otherwise `SELECT COUNT(*) FROM tasks WHERE id IN (dep_ids) AND
status = 'completed'` must equal `len(dep_ids)`. -/
def dependencies_met (tasks : List Task) (dep_ids : List Nat) : Bool :=
  if dep_ids.isEmpty then true
  else
    (tasks.filter (fun t =>
      dep_ids.contains t.id && t.status == TaskStatus.completed)).length
      == dep_ids.length

/-- Method `StateManager.get_next_pending_task`:
`SELECT * FROM tasks WHERE status = 'pending' ORDER BY id ASC`, then return
the first fetched row whose dependencies are met (`None` when no row
qualifies). -/
def get_next_pending_task (tasks : List Task) : Option Task :=
  (sortById (tasks.filter (fun t => t.status == TaskStatus.pending))).find?
    (fun t => dependencies_met tasks t.dependencies)

/-- Method `StateManager.update_task_status`: on a transition to COMPLETED,
`UPDATE tasks SET status, assigned_agent, completed_at = now WHERE id = ?`;
on every other transition, `UPDATE tasks SET status, assigned_agent WHERE
id = ?`.  The Python parameter `assigned_agent` defaults to `None`, so an
omitted agent argument writes NULL. -/
def update_task_status (tasks : List Task) (task_id : Nat)
    (status : TaskStatus) (assigned_agent : Option String) (now : String) :
    List Task :=
  if status == TaskStatus.completed then
    tasks.map (fun t =>
      if t.id == task_id then
        { t with status := status, assigned_agent := assigned_agent,
                 completed_at := some now }
      else t)
  else
    tasks.map (fun t =>
      if t.id == task_id then
        { t with status := status, assigned_agent := assigned_agent }
      else t)

/-- Method `StateManager.increment_task_retries`:
`UPDATE tasks SET retries = retries + 1 WHERE id = ?` followed by
`SELECT retries FROM tasks WHERE id = ?` and `fetchone()[0]` — the fetch
raises when the row is missing, modelled as `none`. -/
def increment_task_retries (tasks : List Task) (task_id : Nat) :
    Option (List Task × Nat) :=
  let tasks2 := tasks.map (fun t =>
    if t.id == task_id then { t with retries := t.retries + 1 } else t)
  match tasks2.find? (fun t => t.id == task_id) with
  | some t => some (tasks2, t.retries)
  | none => none

/-- Method `StateManager.get_blocked_task_count`:
`SELECT COUNT(*) FROM tasks WHERE status = 'blocked'`. -/
def get_blocked_task_count (tasks : List Task) : Nat :=
  (tasks.filter (fun t => t.status == TaskStatus.blocked)).length

/-- Method `StateManager.get_completed_task_count`:
`SELECT COUNT(*) FROM tasks WHERE status = 'completed'`. -/
def get_completed_task_count (tasks : List Task) : Nat :=
  (tasks.filter (fun t => t.status == TaskStatus.completed)).length

/-- The id SQLite assigns to the next row inserted into `tasks`
(`INTEGER PRIMARY KEY AUTOINCREMENT`): one more than the largest id ever
used.  Rows are never deleted in this system, so that is one more than the
largest current id, and 1 on an empty table. -/
def next_task_id (tasks : List Task) : Nat :=
  (tasks.map (fun t => t.id)).foldr max 0 + 1

/-- Method `StateManager.create_task`: `INSERT INTO tasks (name, component,
description, dependencies, created_at)`; the remaining columns take their
schema defaults (status 'pending', retries 0, assigned_agent NULL,
completed_at NULL).  Returns the updated table and `cursor.lastrowid`. -/
def create_task (tasks : List Task) (name component description : String)
    (dependencies : List Nat) (now : String) : List Task × Nat :=
  let id := next_task_id tasks
  (tasks ++ [⟨id, name, component, description, TaskStatus.pending, none, 0,
             dependencies, now, none⟩], id)

/-- Method `StateManager.register_agent`: `INSERT OR REPLACE INTO agents
(id, agent_type, status, total_tokens_used, conversation_history) VALUES
(?, ?, 'idle', 0, '[]')`.  The id column is the primary key; a REPLACE
rewrites the whole row, so the unlisted column `current_task_id` becomes
NULL. -/
def register_agent (agents : List Agent) (agent_id agent_type : String) :
    List Agent :=
  if agents.any (fun a => a.id == agent_id) then
    agents.map (fun a =>
      if a.id == agent_id then
        ⟨agent_id, agent_type, AgentStatus.idle, none, 0, "[]"⟩
      else a)
  else
    agents ++ [⟨agent_id, agent_type, AgentStatus.idle, none, 0, "[]"⟩]

/-- Method `StateManager.update_agent_status`:
`UPDATE agents SET status = ?, current_task_id = ? WHERE id = ?`.  The
Python `agent_id` argument may be `None` (callers pass a possibly-NULL
`assigned_agent` field); `WHERE id = ?` with a NULL parameter matches no
row, so the update is then a no-op. -/
def update_agent_status (agents : List Agent) (agent_id : Option String)
    (status : AgentStatus) (current_task_id : Option Nat) : List Agent :=
  agents.map (fun a =>
    if some a.id == agent_id then
      { a with status := status, current_task_id := current_task_id }
    else a)

/-- Method `StateManager.add_agent_tokens`:
`UPDATE agents SET total_tokens_used = total_tokens_used + ? WHERE id = ?`. -/
def add_agent_tokens (agents : List Agent) (agent_id : String)
    (tokens : Nat) : List Agent :=
  agents.map (fun a =>
    if a.id == agent_id then
      { a with total_tokens_used := a.total_tokens_used + tokens }
    else a)

/-- Method `StateManager.get_total_tokens_used`:
`SELECT SUM(total_tokens_used) FROM agents`, with `result or 0` turning the
NULL sum of an empty table into 0 (the Lean sum of an empty list is
already 0). -/
def get_total_tokens_used (agents : List Agent) : Nat :=
  (agents.map (fun a => a.total_tokens_used)).sum

/-- Persistent state held by `StateManager` that the circuit breaker reads:
the `tasks` and `agents` tables. -/
structure SystemState where
  tasks : List Task
  agents : List Agent
deriving DecidableEq, Repr

/-- Method `CircuitBreaker.check` from src/orchestrator/circuit_breaker.py.
We model the `status` field of the returned `CircuitBreakerStatus`; the
human-readable `reason` and `details` fields and the checkpoint writes are
side information not consulted by any control flow.  The two configured
bounds are the values `config.MAX_TOKENS_BUDGET` and
`config.MAX_BLOCKED_TASKS` read inside the method. -/
def check (max_tokens_budget max_blocked_tasks : Nat) (s : SystemState) :
    SystemStatus :=
  let total_tokens := get_total_tokens_used s.agents
  if max_tokens_budget ≤ total_tokens then
    SystemStatus.budget_exceeded
  else
    let blocked_count := get_blocked_task_count s.tasks
    if max_blocked_tasks ≤ blocked_count then
      SystemStatus.needs_human
    else
      let all_tasks := get_all_tasks s.tasks
      if all_tasks.isEmpty then
        SystemStatus.running
      else
        let completed := (all_tasks.filter
          (fun t => t.status == TaskStatus.completed)).length
        let blocked := (all_tasks.filter
          (fun t => t.status == TaskStatus.blocked)).length
        let total := all_tasks.length
        if completed + blocked == total then
          if blocked == 0 then SystemStatus.completed
          else SystemStatus.needs_human
        else
          SystemStatus.running

/-- Method `CircuitBreaker.should_checkpoint`: completed count positive and
divisible by `config.CHECKPOINT_INTERVAL`. -/
def should_checkpoint (checkpoint_interval : Nat) (tasks : List Task) :
    Bool :=
  let completed := get_completed_task_count tasks
  decide (0 < completed) && (completed % checkpoint_interval == 0)

/-- Method `CircuitBreaker.handle_task_failure`: increments the task's
retry counter through `StateManager.increment_task_retries`, fetches the
task (raising when absent, modelled as `none`), and returns `False` (block)
when the new count has reached `config.MAX_TASK_RETRIES`, `True` (retry)
otherwise.  The log writes do not affect the returned decision. -/
def handle_task_failure (max_task_retries : Nat) (tasks : List Task)
    (task_id : Nat) : Option (List Task × Bool) :=
  match increment_task_retries tasks task_id with
  | none => none
  | some (tasks2, retries) =>
    match get_task tasks2 task_id with
    | none => none
    | some _ =>
      if max_task_retries ≤ retries then some (tasks2, false)
      else some (tasks2, true)

/-- Repeated invocation of `handle_task_failure` on the same task,
collecting the returned retry decisions in call order — the claim's
scenario of n successive failures of one task. -/
def iterate_failures (max_task_retries task_id : Nat) :
    Nat → List Task → Option (List Task × List Bool)
  | 0, tasks => some (tasks, [])
  | n + 1, tasks =>
    match handle_task_failure max_task_retries tasks task_id with
    | none => none
    | some (tasks2, b) =>
      match iterate_failures max_task_retries task_id n tasks2 with
      | none => none
      | some (tasks3, bs) => some (tasks3, b :: bs)

/-- One entry of the `BROWSER_TASKS` catalog in
src/orchestrator/task_queue.py. -/
structure TaskDef where
  name : String
  component : String
  description : String
  dependencies : List Nat
deriving DecidableEq, Repr

/-- The static catalog `BROWSER_TASKS` from src/orchestrator/task_queue.py. -/
def BROWSER_TASKS : List TaskDef := [
  ⟨"Setup project structure", "core",
    "Create the basic browser project structure in the browser/ directory:\n- browser/main.py - Entry point\n- browser/window.py - Main window class using PyQt6\n- browser/config.py - Browser configuration\n\nThe main window should:\n1. Create a QMainWindow with title \"MyBrowser\"\n2. Set minimum size to 1024x768\n3. Have a central widget placeholder\n4. Be runnable with: python browser/main.py\n\nUse PyQt6 for the GUI. Keep it minimal but functional.",
    []⟩,
  ⟨"Implement URL bar", "ui",
    "Add a URL bar to the browser window:\n- browser/components/url_bar.py - URL input widget\n\nFeatures:\n1. QLineEdit for URL input\n2. Go button to trigger navigation\n3. Enter key triggers navigation\n4. Signal emitted when URL is submitted: url_submitted(str)\n\nIntegrate into main window at the top.",
    [1]⟩,
  ⟨"Implement tab manager", "ui",
    "Add tabbed browsing support:\n- browser/components/tab_manager.py - Tab management widget\n\nFeatures:\n1. QTabWidget to hold multiple tabs\n2. New tab button (+)\n3. Close tab button (x) on each tab\n4. Tab shows page title\n5. Signals: new_tab_requested(), tab_closed(int), tab_changed(int)\n\nIntegrate into main window as central widget.",
    [1]⟩,
  ⟨"Implement HTTP networking", "networking",
    "Create the networking layer:\n- browser/networking/http_client.py - HTTP/HTTPS client\n\nFeatures:\n1. Async HTTP GET requests using urllib or httpx\n2. Support for HTTPS\n3. Follow redirects (max 10)\n4. Timeout handling (30 seconds)\n5. Return response with: status_code, headers, body, final_url\n6. Handle common errors gracefully\n\nKeep it simple - no connection pooling needed yet.",
    [1]⟩,
  ⟨"Implement HTML parser", "parser",
    "Create a basic HTML parser:\n- browser/parser/html_parser.py - HTML tokenizer and DOM builder\n- browser/parser/dom.py - DOM node classes\n\nFeatures:\n1. Parse HTML string into DOM tree\n2. Handle common tags: html, head, body, div, span, p, a, img, h1-h6, ul, ol, li\n3. Extract text content\n4. Extract links (href from <a> tags)\n5. Handle malformed HTML gracefully (don\x27t crash)\n\nUse Python\x27s html.parser as a base, build DOM tree on top.",
    [1]⟩,
  ⟨"Implement basic CSS parser", "parser",
    "Create a basic CSS parser:\n- browser/parser/css_parser.py - CSS tokenizer and rule parser\n\nFeatures:\n1. Parse inline styles and <style> blocks\n2. Support basic selectors: element, .class, #id\n3. Parse common properties: color, background-color, font-size, margin, padding, display\n4. Return structured style rules\n\nKeep it simple - no cascade calculation yet.",
    [1]⟩,
  ⟨"Implement content view", "rendering",
    "Create a content display widget:\n- browser/components/content_view.py - Renders page content\n\nFeatures:\n1. QWidget that displays parsed HTML\n2. Use QTextBrowser or custom painting for basic rendering\n3. Display text content with basic formatting\n4. Make links clickable (emit signal with URL)\n5. Show images (basic support)\n6. Signal: link_clicked(str)\n\nThis is a simplified renderer - not pixel-perfect.",
    [5, 6]⟩,
  ⟨"Implement page loader", "core",
    "Create the page loading coordinator:\n- browser/core/page_loader.py - Coordinates fetching and parsing\n\nFeatures:\n1. Takes a URL, fetches content via HTTP client\n2. Parses HTML response\n3. Extracts and applies CSS\n4. Returns parsed page object ready for rendering\n5. Handle errors (network, parse) gracefully\n6. Async operation with progress/status signals\n\nWire together: networking -> parsing -> ready for display.",
    [4, 5, 6]⟩,
  ⟨"Implement navigation controller", "core",
    "Create navigation logic:\n- browser/core/navigation.py - History and navigation controller\n\nFeatures:\n1. Navigate to URL (triggers page load)\n2. Back/Forward history\n3. History stack per tab\n4. Current URL tracking\n5. Signals: navigation_started(str), navigation_complete(str), navigation_failed(str, error)\n\nIntegrate with tab manager - each tab has its own history.",
    [3, 8]⟩,
  ⟨"Integration and wiring", "integration",
    "Wire all components together in main.py:\n\n1. URL bar submit -> navigation controller -> page loader -> content view\n2. Tab switching updates URL bar and content view\n3. Link clicks in content view -> navigation controller\n4. Back/Forward buttons work\n5. New tab opens with blank page or home page\n6. Window title shows current page title\n\nTest the full flow:\n- Run browser: python browser/main.py\n- Enter URL in bar\n- Page loads and displays\n- Links are clickable\n- Tabs work\n- Back/Forward work\n\nFix any integration bugs.",
    [2, 3, 7, 9]⟩
]

/-- Catalog loader `initialize_tasks` from src/orchestrator/task_queue.py
(named `init_tasks` here): if `get_all_tasks` returns any row the store is
left untouched, otherwise every catalog entry is created in order via
`StateManager.create_task`.  The final log write does not touch the tasks
table. -/
def init_tasks (tasks : List Task) (now : String) : List Task :=
  if (get_all_tasks tasks).isEmpty then
    BROWSER_TASKS.foldl (fun acc td =>
      (create_task acc td.name td.component td.description td.dependencies
        now).1) tasks
  else tasks

/-- State touched by the coordinator fix cycle of src/orchestrator/main.py,
restricted to one task and its coding agent: the persisted row fields the
cycle reads and writes, plus a count of Worker-capability invocations
(calls to `work_on_task` and `fix_issues`).  Token accounting and log
writes are omitted — no control flow of the cycle reads them. -/
structure FixCycleState where
  task_status : TaskStatus
  task_retries : Nat
  task_assigned : Option String
  agent_status : AgentStatus
  worker_calls : Nat
deriving DecidableEq, Repr

/-- Method `Orchestrator._block_task`: `update_task_status(task.id,
BLOCKED)` with the agent argument omitted (writing NULL into
`assigned_agent`), then `update_agent_status(task.assigned_agent, IDLE)`
where `task` is the in-memory task object handed to the method —
`UPDATE agents WHERE id = ?` with a NULL parameter matches no row, so a
stale `None` view leaves the agent row unchanged. -/
def block_task (agent_id : String) (view_assigned : Option String)
    (s : FixCycleState) : FixCycleState :=
  let s1 := { s with task_status := TaskStatus.blocked,
                     task_assigned := none }
  if view_assigned == some agent_id then
    { s1 with agent_status := AgentStatus.idle }
  else s1

/-- Method `Orchestrator._handle_qa_rejection`, specialised to the
scenario of the claim: the Worker capability (`fix_issues`) always
succeeds and the Reviewer capability always rejects, so the approve
branch is never taken.  `view_assigned` is the `assigned_agent` field of
the in-memory `task` argument, which can be stale; before recursing the
code re-fetches the task (`updated_task = self.state.get_task(task.id)`),
so the view passed downward equals the persisted value. -/
def handle_qa_rejection (max_task_retries : Nat) (agent_id : String)
    (view_assigned : Option String) (s : FixCycleState) : FixCycleState :=
  let r := s.task_retries + 1
  let s1 := { s with task_retries := r }
  if _h : r < max_task_retries then
    let s2 := { s1 with worker_calls := s1.worker_calls + 1 }
    if r < max_task_retries then
      handle_qa_rejection max_task_retries agent_id s2.task_assigned s2
    else
      block_task agent_id view_assigned s2
  else
    block_task agent_id view_assigned s1
termination_by max_task_retries - s.task_retries
decreasing_by
  omega

/-- Method `Orchestrator._process_task`, specialised to the scenario of
the claim: a single task with retry counter 0, a Worker that always
succeeds and a Reviewer that always rejects.  `view_assigned0` is the
`assigned_agent` snapshot carried by the in-memory task object returned by
the scheduler (the persisted value at scheduling time). -/
def process_task (max_task_retries : Nat) (agent_id : String)
    (view_assigned0 : Option String) : FixCycleState :=
  let s0 : FixCycleState :=
    ⟨TaskStatus.pending, 0, view_assigned0, AgentStatus.idle, 0⟩
  let s1 := { s0 with task_status := TaskStatus.in_progress,
                      task_assigned := some agent_id,
                      agent_status := AgentStatus.working }
  let s2 := { s1 with worker_calls := s1.worker_calls + 1 }
  let s3 := { s2 with task_status := TaskStatus.in_qa,
                      task_assigned := some agent_id,
                      agent_status := AgentStatus.waiting_qa }
  handle_qa_rejection max_task_retries agent_id view_assigned0 s3

/-- Statement of spec sections 4.2 and 8, written from the spec text for
comparison with the code's `dependencies_met`: every listed dependency id
names a task in the store whose status is COMPLETED. -/
def all_deps_completed_spec (tasks : List Task) (dep_ids : List Nat) :
    Bool :=
  dep_ids.all (fun d =>
    tasks.any (fun u => u.id == d && u.status == TaskStatus.completed))

/-- Store well-formedness, the catalog invariant of spec section 3: rows
are in strictly increasing id order (creation order), and each task's
dependency list is duplicate-free and references only previously created
tasks — in particular the dependency graph is a DAG. -/
def WellFormedStore (tasks : List Task) : Prop :=
  tasks.Pairwise (fun a b => a.id < b.id) ∧
  ∀ t ∈ tasks, t.dependencies.Nodup ∧
    ∀ d ∈ t.dependencies, ∃ u ∈ tasks, u.id = d ∧ u.id < t.id

instance (tasks : List Task) : Decidable (WellFormedStore tasks) := by
  unfold WellFormedStore
  exact inferInstance

/-! Helper lemmas shared by several claims. -/

/-- Lookup by id commutes with a row transformation that preserves ids. -/
theorem find?_map_of_id_preserving (l : List Task) (task_id : Nat)
    (f : Task → Task) (hf : ∀ t, (f t).id = t.id) :
    (l.map f).find? (fun u => u.id == task_id)
      = (l.find? (fun u => u.id == task_id)).map f := by
  rw [List.find?_map]
  have hpf : ((fun u : Task => u.id == task_id) ∘ f)
      = (fun u : Task => u.id == task_id) := by
    funext t
    simp [Function.comp, hf]
  rw [hpf]

/-- Effect of `update_task_status` with status COMPLETED on the updated
row. -/
theorem get_task_update_completed (tasks : List Task) (task_id : Nat)
    (ag : Option String) (now : String) (t : Task)
    (ht : get_task tasks task_id = some t) :
    get_task (update_task_status tasks task_id TaskStatus.completed ag
        now) task_id
      = some { t with
          status := TaskStatus.completed,
          assigned_agent := ag,
          completed_at := some now } := by
  rw [get_task] at ht
  have hp := List.find?_some ht
  have heq : t.id = task_id := by simpa using hp
  rw [update_task_status]
  simp only [beq_self_eq_true, if_true]
  rw [get_task, find?_map_of_id_preserving _ _ _
    (fun u => by by_cases h : (u.id == task_id) = true <;> simp [h])]
  rw [ht]
  simp [heq]

/-- Effect of `update_task_status` with a status other than COMPLETED on
the updated row. -/
theorem get_task_update_other (tasks : List Task) (task_id : Nat)
    (status : TaskStatus) (ag : Option String) (now : String) (t : Task)
    (hs : status ≠ TaskStatus.completed)
    (ht : get_task tasks task_id = some t) :
    get_task (update_task_status tasks task_id status ag now) task_id
      = some { t with status := status, assigned_agent := ag } := by
  rw [get_task] at ht
  have hp := List.find?_some ht
  have heq : t.id = task_id := by simpa using hp
  have hsb : (status == TaskStatus.completed) = false :=
    beq_eq_false_iff_ne.mpr hs
  rw [update_task_status]
  simp only [hsb, Bool.false_eq_true, if_false]
  rw [get_task, find?_map_of_id_preserving _ _ _
    (fun u => by by_cases h : (u.id == task_id) = true <;> simp [h])]
  rw [ht]
  simp [heq]

/-- C2: the health check tests the token budget before the blocked-task
count, so every state with cumulative usage at or above the budget reports
BUDGET_EXCEEDED — never NEEDS_HUMAN — even when the blocked-task count is
also at or above its threshold. -/
theorem C2_budget_priority (max_tokens_budget max_blocked_tasks : Nat)
    (s : SystemState)
    (hb : max_tokens_budget ≤ get_total_tokens_used s.agents)
    (hc : max_blocked_tasks ≤ get_blocked_task_count s.tasks) :
    check max_tokens_budget max_blocked_tasks s
        = SystemStatus.budget_exceeded ∧
    check max_tokens_budget max_blocked_tasks s
        ≠ SystemStatus.needs_human := by
  have h1 : check max_tokens_budget max_blocked_tasks s
      = SystemStatus.budget_exceeded := by
    simp [check, hb]
  exact ⟨h1, by simp [h1]⟩

/-- Witness for C2 at a concrete state that is both over budget and over
the blocked-task threshold. -/
theorem C2_witness :
    5 ≤ get_total_tokens_used
        [⟨"coding-1", "coding", AgentStatus.idle, none, 6, "[]"⟩] ∧
    1 ≤ get_blocked_task_count
        [⟨1, "t", "c", "d", TaskStatus.blocked, none, 0, [], "", none⟩] ∧
    check 5 1
        ⟨[⟨1, "t", "c", "d", TaskStatus.blocked, none, 0, [], "", none⟩],
         [⟨"coding-1", "coding", AgentStatus.idle, none, 6, "[]"⟩]⟩
      = SystemStatus.budget_exceeded :=
  ⟨by decide, by decide,
    (C2_budget_priority 5 1
      ⟨[⟨1, "t", "c", "d", TaskStatus.blocked, none, 0, [], "", none⟩],
       [⟨"coding-1", "coding", AgentStatus.idle, none, 6, "[]"⟩]⟩
      (by decide) (by decide)).1⟩

/-- C8: on a state with zero tasks, usage below budget and blocked count
below threshold, the health check reports RUNNING — it never reports
COMPLETED on an empty task set. -/
theorem C8_empty_store_running (max_tokens_budget max_blocked_tasks : Nat)
    (s : SystemState) (h0 : s.tasks = [])
    (hb : get_total_tokens_used s.agents < max_tokens_budget)
    (hc : get_blocked_task_count s.tasks < max_blocked_tasks) :
    check max_tokens_budget max_blocked_tasks s = SystemStatus.running ∧
    check max_tokens_budget max_blocked_tasks s
        ≠ SystemStatus.completed := by
  have hb2 : ¬ max_tokens_budget ≤ get_total_tokens_used s.agents :=
    Nat.not_le.mpr hb
  have hne : max_blocked_tasks ≠ 0 :=
    Nat.pos_iff_ne_zero.mp (Nat.lt_of_le_of_lt (Nat.zero_le _) hc)
  have h1 : check max_tokens_budget max_blocked_tasks s
      = SystemStatus.running := by
    simp [check, hb2, h0, get_all_tasks, sortById, List.insertionSort,
      get_blocked_task_count, hne]
  exact ⟨h1, by simp [h1]⟩

/-- Witness for C8 at the empty state. -/
theorem C8_witness :
    (⟨[], []⟩ : SystemState).tasks = [] ∧
    get_total_tokens_used (⟨[], []⟩ : SystemState).agents < 1 ∧
    get_blocked_task_count (⟨[], []⟩ : SystemState).tasks < 1 ∧
    check 1 1 ⟨[], []⟩ = SystemStatus.running :=
  ⟨by decide, by decide, by decide,
    (C8_empty_store_running 1 1 ⟨[], []⟩ (by decide) (by decide)
      (by decide)).1⟩

/-- C5: updating a stored task to COMPLETED stamps its completion
timestamp with the current time; updating it to any other status leaves a
previously null completion timestamp null. -/
theorem C5_completed_stamp (tasks : List Task) (task_id : Nat)
    (ag : Option String) (now : String) (t : Task)
    (ht : get_task tasks task_id = some t) :
    ((get_task (update_task_status tasks task_id TaskStatus.completed ag
        now) task_id).map Task.completed_at = some (some now)) ∧
    (∀ status : TaskStatus, status ≠ TaskStatus.completed →
      t.completed_at = none →
      (get_task (update_task_status tasks task_id status ag now)
          task_id).map Task.completed_at = some none) := by
  constructor
  · rw [get_task_update_completed tasks task_id ag now t ht]
    simp
  · intro status hs hc
    rw [get_task_update_other tasks task_id status ag now t hs ht]
    simp [hc]

/-- Witness for C5 on a one-task store. -/
theorem C5_witness :
    get_task [⟨1, "t", "c", "d", TaskStatus.pending, none, 0, [], "",
        none⟩] 1
      = some ⟨1, "t", "c", "d", TaskStatus.pending, none, 0, [], "",
        none⟩ ∧
    (get_task (update_task_status
        [⟨1, "t", "c", "d", TaskStatus.pending, none, 0, [], "", none⟩] 1
        TaskStatus.completed none "2026-01-01") 1).map Task.completed_at
      = some (some "2026-01-01") :=
  ⟨by decide,
    (C5_completed_stamp
      [⟨1, "t", "c", "d", TaskStatus.pending, none, 0, [], "", none⟩] 1
      none "2026-01-01"
      ⟨1, "t", "c", "d", TaskStatus.pending, none, 0, [], "", none⟩
      (by decide)).1⟩

/-- C9: `update_task_status` always overwrites the stored assigned-agent
field with the supplied argument — NULL when the argument is omitted — so
transitioning a task without an agent argument clears its assignment; the
status column is likewise overwritten. -/
theorem C9_assigned_overwrite (tasks : List Task) (task_id : Nat)
    (status : TaskStatus) (ag : Option String) (now : String) (t : Task)
    (ht : get_task tasks task_id = some t) :
    ((get_task (update_task_status tasks task_id status ag now)
        task_id).map Task.assigned_agent = some ag) ∧
    ((get_task (update_task_status tasks task_id status ag now)
        task_id).map Task.status = some status) := by
  by_cases hs : status = TaskStatus.completed
  · subst hs
    rw [get_task_update_completed tasks task_id ag now t ht]
    simp
  · rw [get_task_update_other tasks task_id status ag now t hs ht]
    simp

/-- Witness for C9: blocking an assigned task with the agent argument
omitted clears the stored assignment. -/
theorem C9_witness :
    get_task [⟨1, "t", "c", "d", TaskStatus.in_qa, some "coding-1", 0, [],
        "", none⟩] 1
      = some ⟨1, "t", "c", "d", TaskStatus.in_qa, some "coding-1", 0, [],
        "", none⟩ ∧
    (get_task (update_task_status
        [⟨1, "t", "c", "d", TaskStatus.in_qa, some "coding-1", 0, [], "",
          none⟩] 1 TaskStatus.blocked none "") 1).map Task.assigned_agent
      = some none :=
  ⟨by decide,
    (C9_assigned_overwrite
      [⟨1, "t", "c", "d", TaskStatus.in_qa, some "coding-1", 0, [], "",
        none⟩] 1 TaskStatus.blocked none ""
      ⟨1, "t", "c", "d", TaskStatus.in_qa, some "coding-1", 0, [], "",
        none⟩ (by decide)).1⟩

/-- Row written by `register_agent` for a given id and type. -/
theorem register_agent_find (agents : List Agent)
    (agent_id agent_type : String) :
    (register_agent agents agent_id agent_type).find?
        (fun a => a.id == agent_id)
      = some ⟨agent_id, agent_type, AgentStatus.idle, none, 0, "[]"⟩ := by
  by_cases h : agents.any (fun a => a.id == agent_id) = true
  · rw [register_agent, if_pos h]
    rw [List.find?_map]
    have hpg : ((fun a : Agent => a.id == agent_id) ∘ (fun a : Agent =>
        if a.id == agent_id then
          ⟨agent_id, agent_type, AgentStatus.idle, none, 0, "[]"⟩
        else a)) = fun a : Agent => a.id == agent_id := by
      funext a
      by_cases ha : (a.id == agent_id) = true <;>
        simp [Function.comp, ha]
    rw [hpg]
    obtain ⟨a0, ha0mem, ha0⟩ := List.any_eq_true.mp h
    cases hf : agents.find? (fun a => a.id == agent_id) with
    | none =>
      exact absurd ha0 (by simpa using List.find?_eq_none.mp hf a0 ha0mem)
    | some a1 =>
      have hpa1 := List.find?_some hf
      have heq1 : a1.id = agent_id := by simpa using hpa1
      simp [heq1]
  · rw [register_agent, if_neg h]
    rw [List.find?_append]
    have hnone : agents.find? (fun a => a.id == agent_id) = none := by
      rw [List.find?_eq_none]
      intro x hx hxid
      exact h (List.any_eq_true.mpr ⟨x, hx, hxid⟩)
    rw [hnone]
    simp [List.find?]

/-- Registering the same agent id twice is the same as registering it
once. -/
theorem register_agent_idem (agents : List Agent)
    (agent_id agent_type : String) :
    register_agent (register_agent agents agent_id agent_type) agent_id
        agent_type
      = register_agent agents agent_id agent_type := by
  have hfind := register_agent_find agents agent_id agent_type
  have hps := List.find?_some hfind
  have hms := List.mem_of_find?_eq_some hfind
  have hany : (register_agent agents agent_id agent_type).any
      (fun a => a.id == agent_id) = true :=
    List.any_eq_true.mpr ⟨_, hms, hps⟩
  have hmem : ∀ a ∈ register_agent agents agent_id agent_type,
      (a.id == agent_id) = true →
      a = ⟨agent_id, agent_type, AgentStatus.idle, none, 0, "[]"⟩ := by
    intro a ha haid
    rw [register_agent] at ha
    by_cases h : agents.any (fun a => a.id == agent_id) = true
    · rw [if_pos h] at ha
      obtain ⟨b, _, hb⟩ := List.mem_map.mp ha
      by_cases hbid : (b.id == agent_id) = true
      · rw [if_pos hbid] at hb
        exact hb.symm
      · rw [if_neg hbid] at hb
        exact absurd (hb ▸ haid) hbid
    · rw [if_neg h] at ha
      rcases List.mem_append.mp ha with hmem2 | hmem2
      · exact absurd (List.any_eq_true.mpr ⟨a, hmem2, haid⟩) h
      · simpa using hmem2
  conv_lhs => rw [register_agent]
  rw [if_pos hany]
  have : ∀ a ∈ register_agent agents agent_id agent_type,
      (if a.id == agent_id then
        (⟨agent_id, agent_type, AgentStatus.idle, none, 0, "[]"⟩ : Agent)
      else a) = a := by
    intro a ha
    by_cases haid : (a.id == agent_id) = true
    · rw [if_pos haid]
      exact (hmem a ha haid).symm
    · rw [if_neg haid]
  rw [List.map_congr_left this]
  exact List.map_id _

/-- C6: `register_agent` is an idempotent reset — after the call the
stored row for the agent id has status IDLE and zero cumulative usage
regardless of any prior row, and calling it again leaves the whole agents
table unchanged. -/
theorem C6_register_agent_reset (agents : List Agent)
    (agent_id agent_type : String) :
    ((register_agent agents agent_id agent_type).find?
        (fun a => a.id == agent_id)
      = some ⟨agent_id, agent_type, AgentStatus.idle, none, 0, "[]"⟩) ∧
    register_agent (register_agent agents agent_id agent_type) agent_id
        agent_type
      = register_agent agents agent_id agent_type :=
  ⟨register_agent_find agents agent_id agent_type,
   register_agent_idem agents agent_id agent_type⟩

/-- C7: the catalog loader leaves a non-empty store untouched, so loading
twice produces the same tasks as loading once. -/
theorem C7_init_tasks_idempotent (tasks : List Task) (now now2 : String)
    (h : tasks ≠ []) :
    init_tasks tasks now = tasks ∧
    init_tasks (init_tasks tasks now) now2 = init_tasks tasks now := by
  have key : ∀ nw : String, init_tasks tasks nw = tasks := by
    intro nw
    have hlen : (sortById tasks).length = tasks.length :=
      (List.perm_insertionSort _ tasks).length_eq
    have hne : ¬ (get_all_tasks tasks).isEmpty = true := by
      intro hE
      rw [get_all_tasks, List.isEmpty_iff_length_eq_zero, hlen] at hE
      exact h (List.length_eq_zero.mp hE)
    rw [init_tasks, if_neg hne]
  exact ⟨key now, by rw [key now, key now2]⟩

/-- Witness for C7 on a concrete one-task store. -/
theorem C7_witness :
    ([⟨1, "t", "c", "d", TaskStatus.pending, none, 0, [], "", none⟩]
        : List Task) ≠ [] ∧
    init_tasks
        [⟨1, "t", "c", "d", TaskStatus.pending, none, 0, [], "", none⟩]
        ("x")
      = [⟨1, "t", "c", "d", TaskStatus.pending, none, 0, [], "", none⟩] :=
  ⟨by decide,
    (C7_init_tasks_idempotent
      [⟨1, "t", "c", "d", TaskStatus.pending, none, 0, [], "", none⟩]
      ("x") ("x") (by decide)).1⟩

/-- Effect of a single `handle_task_failure` call on a stored task: the
call increments the stored counter by one and returns the retry decision
computed from the new count. -/
theorem handle_task_failure_step (max_task_retries : Nat)
    (tasks : List Task) (task_id : Nat) (t : Task)
    (ht : get_task tasks task_id = some t) :
    handle_task_failure max_task_retries tasks task_id
      = some (tasks.map (fun u =>
          if u.id == task_id then { u with retries := u.retries + 1 }
          else u),
        decide (t.retries + 1 < max_task_retries)) ∧
    get_task (tasks.map (fun u =>
        if u.id == task_id then { u with retries := u.retries + 1 }
        else u)) task_id
      = some { t with retries := t.retries + 1 } := by
  rw [get_task] at ht
  have hp := List.find?_some ht
  have heq : t.id = task_id := by simpa using hp
  have hfind2 : (tasks.map (fun u =>
      if u.id == task_id then { u with retries := u.retries + 1 }
      else u)).find? (fun u => u.id == task_id)
      = some { t with retries := t.retries + 1 } := by
    rw [find?_map_of_id_preserving _ _ _
      (fun u => by by_cases h : (u.id == task_id) = true <;> simp [h])]
    rw [ht]
    simp [heq]
  constructor
  · rw [handle_task_failure, increment_task_retries]
    simp only [hfind2, get_task]
    by_cases hm : max_task_retries ≤ t.retries + 1
    · rw [if_pos hm, decide_eq_false (Nat.not_lt.mpr hm)]
    · rw [if_neg hm, decide_eq_true (Nat.lt_of_not_le hm)]
  · rw [get_task]
    exact hfind2

/-- Iterating `handle_task_failure` n times from a stored task: the i-th
call (1-based) returns retry exactly when the counter value i is still
below the bound, and the stored counter ends at the number of calls. -/
theorem iterate_failures_spec (max_task_retries task_id : Nat) :
    ∀ (n : Nat) (tasks : List Task) (t : Task),
      get_task tasks task_id = some t →
      ∃ tasks2,
        iterate_failures max_task_retries task_id n tasks
          = some (tasks2, (List.range n).map
              (fun i => decide (t.retries + i + 1 < max_task_retries))) ∧
        get_task tasks2 task_id
          = some { t with retries := t.retries + n } := by
  intro n
  induction n with
  | zero =>
    intro tasks t ht
    refine ⟨tasks, by simp [iterate_failures], ?_⟩
    simpa using ht
  | succ n ih =>
    intro tasks t ht
    obtain ⟨hstep1, hstep2⟩ :=
      handle_task_failure_step max_task_retries tasks task_id t ht
    obtain ⟨tasks2, hit, hfind⟩ := ih _ _ hstep2
    refine ⟨tasks2, ?_, ?_⟩
    · rw [iterate_failures]
      rw [hstep1]
      dsimp only
      rw [hit]
      dsimp only
      have hrange : (List.range (n + 1)).map
          (fun i => decide (t.retries + i + 1 < max_task_retries))
          = decide (t.retries + 1 < max_task_retries) ::
            (List.range n).map (fun i =>
              decide (t.retries + 1 + i + 1 < max_task_retries)) := by
        rw [List.range_succ_eq_map, List.map_cons, List.map_map]
        refine congrArg₂ _ (by simp) ?_
        refine congrArg₂ _ ?_ rfl
        funext i
        exact decide_eq_decide.mpr (by omega)
      rw [hrange]
    · rw [show t.retries + (n + 1) = t.retries + 1 + n from by omega]
      exact hfind

/-- C3: every `handle_task_failure` call increments the stored retry
counter by exactly one and returns retry exactly when the new count is
below the configured maximum; iterating it `max_task_retries` times from a
zero counter yields retry on every call whose new count is still below the
bound (all but the last), block on the last, and a final stored counter
equal to the number of calls. -/
theorem C3_handle_task_failure_counts (max_task_retries task_id : Nat)
    (tasks : List Task) (t : Task)
    (ht : get_task tasks task_id = some t) (h0 : t.retries = 0) :
    (∀ (tasks3 : List Task) (u : Task),
        get_task tasks3 task_id = some u →
        handle_task_failure max_task_retries tasks3 task_id
          = some (tasks3.map (fun v =>
              if v.id == task_id then { v with retries := v.retries + 1 }
              else v),
            decide (u.retries + 1 < max_task_retries)) ∧
        (get_task (tasks3.map (fun v =>
            if v.id == task_id then { v with retries := v.retries + 1 }
            else v)) task_id).map Task.retries = some (u.retries + 1)) ∧
    ∃ tasks2,
      iterate_failures max_task_retries task_id max_task_retries tasks
        = some (tasks2, (List.range max_task_retries).map
            (fun i => decide (i + 1 < max_task_retries))) ∧
      (get_task tasks2 task_id).map Task.retries
        = some max_task_retries := by
  constructor
  · intro tasks3 u hu
    obtain ⟨h1, h2⟩ :=
      handle_task_failure_step max_task_retries tasks3 task_id u hu
    exact ⟨h1, by rw [h2]; rfl⟩
  · obtain ⟨tasks2, hit, hfind⟩ :=
      iterate_failures_spec max_task_retries task_id max_task_retries
        tasks t ht
    refine ⟨tasks2, ?_, ?_⟩
    · rw [hit]
      have : (fun i => decide (t.retries + i + 1 < max_task_retries))
          = (fun i => decide (i + 1 < max_task_retries)) := by
        funext i
        rw [h0, Nat.zero_add]
      rw [this]
    · rw [hfind]
      simp [h0]

/-- Witness for C3 on a one-task store with the retry bound 2. -/
theorem C3_witness :
    get_task
        [⟨1, "t", "c", "d", TaskStatus.pending, none, 0, [], "", none⟩] 1
      = some ⟨1, "t", "c", "d", TaskStatus.pending, none, 0, [], "",
          none⟩ ∧
    (⟨1, "t", "c", "d", TaskStatus.pending, none, 0, [], "", none⟩
        : Task).retries = 0 ∧
    ∃ tasks2,
      iterate_failures 2 1 2
          [⟨1, "t", "c", "d", TaskStatus.pending, none, 0, [], "", none⟩]
        = some (tasks2, (List.range 2).map (fun i => decide (i + 1 < 2)))
        ∧
      (get_task tasks2 1).map Task.retries = some 2 :=
  ⟨by decide, by decide,
    (C3_handle_task_failure_counts 2 1
      [⟨1, "t", "c", "d", TaskStatus.pending, none, 0, [], "", none⟩]
      ⟨1, "t", "c", "d", TaskStatus.pending, none, 0, [], "", none⟩
      (by decide) (by decide)).2⟩

/-- Splitting a true Boolean conjunction. -/
theorem band_split {a b : Bool} (h : (a && b) = true) :
    a = true ∧ b = true := by
  simp at h
  exact h

/-- Lookup in a filtered list folds the filter into the predicate. -/
theorem find?_filter_eq (l : List Task) (p q : Task → Bool) :
    (l.filter p).find? q = l.find? (fun a => p a && q a) := by
  induction l with
  | nil => rfl
  | cons a l ih =>
    by_cases hp : p a = true
    · cases hq : q a
      · simp [List.filter_cons, hp, List.find?, hq, ih]
      · simp [List.filter_cons, hp, List.find?, hq]
    · simp only [Bool.not_eq_true] at hp
      simp [List.filter_cons, hp, List.find?, ih]

/-- Lookup respects predicates that agree on the list members. -/
theorem find?_congr_mem (l : List Task) (p q : Task → Bool)
    (h : ∀ a ∈ l, p a = q a) :
    l.find? p = l.find? q := by
  induction l with
  | nil => rfl
  | cons a l ih =>
    simp only [List.find?]
    rw [h a (List.mem_cons_self a l)]
    cases hq : q a
    · exact ih fun x hx => h x (List.mem_cons_of_mem a hx)
    · rfl

/-- Count equivalence: with duplicate-free store ids and a duplicate-free
dependency list, the SQL count test of `_dependencies_met` agrees with the
spec reading that every dependency id names a COMPLETED task. -/
theorem dependencies_met_eq_spec (tasks : List Task) (deps : List Nat)
    (hids : (tasks.map Task.id).Nodup) (hdeps : deps.Nodup) :
    dependencies_met tasks deps = all_deps_completed_spec tasks deps := by
  by_cases h0 : deps.isEmpty = true
  · have hnil : deps = [] := by
      cases deps with
      | nil => rfl
      | cons a l => simp at h0
    subst hnil
    simp [dependencies_met, all_deps_completed_spec]
  · have hFids : ((tasks.filter (fun t =>
        deps.contains t.id && t.status == TaskStatus.completed)).map
          Task.id).Nodup :=
      hids.sublist ((List.filter_sublist tasks).map Task.id)
    have hsubF : ((tasks.filter (fun t =>
        deps.contains t.id && t.status == TaskStatus.completed)).map
          Task.id).toFinset ⊆ deps.toFinset := by
      intro x hx
      rw [List.mem_toFinset] at hx
      rw [List.mem_toFinset]
      obtain ⟨u, huF, rfl⟩ := List.mem_map.mp hx
      have hprop := (List.mem_filter.mp huF).2
      exact List.elem_iff.mp (band_split hprop).1
    have cardF : ((tasks.filter (fun t =>
        deps.contains t.id && t.status == TaskStatus.completed)).map
          Task.id).toFinset.card
        = (tasks.filter (fun t =>
            deps.contains t.id &&
              t.status == TaskStatus.completed)).length := by
      rw [List.toFinset_card_of_nodup hFids, List.length_map]
    have cardD : deps.toFinset.card = deps.length :=
      List.toFinset_card_of_nodup hdeps
    rw [Bool.eq_iff_iff]
    rw [dependencies_met, if_neg h0]
    constructor
    · intro hlen
      have hlen2 : (tasks.filter (fun t =>
          deps.contains t.id && t.status == TaskStatus.completed)).length
          = deps.length := by simpa using hlen
      have hset : ((tasks.filter (fun t =>
          deps.contains t.id && t.status == TaskStatus.completed)).map
            Task.id).toFinset = deps.toFinset :=
        Finset.eq_of_subset_of_card_le hsubF
          (by rw [cardF, cardD, hlen2])
      rw [all_deps_completed_spec, List.all_eq_true]
      intro d hd
      have hd2 : d ∈ ((tasks.filter (fun t =>
          deps.contains t.id && t.status == TaskStatus.completed)).map
            Task.id).toFinset := by
        rw [hset, List.mem_toFinset]
        exact hd
      rw [List.mem_toFinset] at hd2
      obtain ⟨u, huF, huid⟩ := List.mem_map.mp hd2
      obtain ⟨humem, hprop⟩ := List.mem_filter.mp huF
      rw [List.any_eq_true]
      refine ⟨u, humem, ?_⟩
      have hst := (band_split hprop).2
      simp [huid, hst]
    · intro hspec
      have hsubD : deps.toFinset ⊆ ((tasks.filter (fun t =>
          deps.contains t.id && t.status == TaskStatus.completed)).map
            Task.id).toFinset := by
        intro d hd
        rw [List.mem_toFinset] at hd
        rw [List.mem_toFinset]
        rw [all_deps_completed_spec, List.all_eq_true] at hspec
        obtain ⟨u, humem, hu⟩ := List.any_eq_true.mp (hspec d hd)
        have huid : u.id = d := by
          simpa using (band_split hu).1
        have hust : (u.status == TaskStatus.completed) = true :=
          (band_split hu).2
        rw [List.mem_map]
        refine ⟨u, ?_, huid⟩
        rw [List.mem_filter]
        refine ⟨humem, ?_⟩
        rw [Bool.and_eq_true]
        exact ⟨List.elem_iff.mpr (huid ▸ hd), hust⟩
      have hset := Finset.Subset.antisymm hsubF hsubD
      have hlen2 : (tasks.filter (fun t =>
          deps.contains t.id && t.status == TaskStatus.completed)).length
          = deps.length := by
        rw [← cardF, ← cardD, hset]
      simpa using hlen2

/-- C1: on every well-formed store the scheduler query equals its spec
description — the first task in creation (id) order whose status is
PENDING and whose every dependency task is COMPLETED, and none when no
task qualifies — and a returned task never has an incomplete dependency. -/
theorem C1_next_pending_task_spec (tasks : List Task)
    (h : WellFormedStore tasks) :
    (get_next_pending_task tasks
      = tasks.find? (fun t => t.status == TaskStatus.pending &&
          all_deps_completed_spec tasks t.dependencies)) ∧
    ∀ t, get_next_pending_task tasks = some t →
      ∀ d ∈ t.dependencies, ∃ u ∈ tasks, u.id = d ∧
        u.status = TaskStatus.completed := by
  obtain ⟨hpair, hdeps⟩ := h
  have hids : (tasks.map Task.id).Nodup :=
    (List.pairwise_map.mpr hpair).imp fun hlt => Nat.ne_of_lt hlt
  have hsorted : List.Sorted (fun a b : Task => a.id ≤ b.id)
      (tasks.filter (fun t => t.status == TaskStatus.pending)) :=
    (hpair.sublist (List.filter_sublist tasks)).imp
      fun hlt => Nat.le_of_lt hlt
  have hmain : get_next_pending_task tasks
      = tasks.find? (fun t => t.status == TaskStatus.pending &&
          all_deps_completed_spec tasks t.dependencies) := by
    rw [get_next_pending_task, sortById, hsorted.insertionSort_eq]
    rw [find?_filter_eq]
    apply find?_congr_mem
    intro a ha
    by_cases hpa : (a.status == TaskStatus.pending) = true
    · obtain ⟨hnodupa, _⟩ := hdeps a ha
      rw [hpa, Bool.true_and, Bool.true_and]
      exact dependencies_met_eq_spec tasks a.dependencies hids hnodupa
    · have hpa2 : (a.status == TaskStatus.pending) = false :=
        eq_false_of_ne_true hpa
      rw [hpa2, Bool.false_and, Bool.false_and]
  refine ⟨hmain, ?_⟩
  intro t hsome
  rw [hmain] at hsome
  have hpred := List.find?_some hsome
  have hspec : all_deps_completed_spec tasks t.dependencies = true :=
    (band_split hpred).2
  rw [all_deps_completed_spec, List.all_eq_true] at hspec
  intro d hd
  obtain ⟨u, humem, hu⟩ := List.any_eq_true.mp (hspec d hd)
  have h1 : u.id = d := by simpa using (band_split hu).1
  have h2 : u.status = TaskStatus.completed := by
    simpa using (band_split hu).2
  exact ⟨u, humem, h1, h2⟩

/-- Witness for C1 on a concrete two-task store where the second task
depends on the completed first one. -/
theorem C1_witness :
    WellFormedStore
      [⟨1, "a", "c", "d", TaskStatus.completed, none, 0, [], "", none⟩,
       ⟨2, "b", "c", "d", TaskStatus.pending, none, 0, [1], "", none⟩] ∧
    ((get_next_pending_task
        [⟨1, "a", "c", "d", TaskStatus.completed, none, 0, [], "", none⟩,
         ⟨2, "b", "c", "d", TaskStatus.pending, none, 0, [1], "", none⟩]
      = ([⟨1, "a", "c", "d", TaskStatus.completed, none, 0, [], "",
            none⟩,
          ⟨2, "b", "c", "d", TaskStatus.pending, none, 0, [1], "",
            none⟩] : List Task).find?
          (fun t => t.status == TaskStatus.pending &&
            all_deps_completed_spec
              [⟨1, "a", "c", "d", TaskStatus.completed, none, 0, [], "",
                 none⟩,
               ⟨2, "b", "c", "d", TaskStatus.pending, none, 0, [1], "",
                 none⟩] t.dependencies)) ∧
      ∀ t, get_next_pending_task
          [⟨1, "a", "c", "d", TaskStatus.completed, none, 0, [], "",
             none⟩,
           ⟨2, "b", "c", "d", TaskStatus.pending, none, 0, [1], "",
             none⟩] = some t →
        ∀ d ∈ t.dependencies, ∃ u ∈
          ([⟨1, "a", "c", "d", TaskStatus.completed, none, 0, [], "",
              none⟩,
            ⟨2, "b", "c", "d", TaskStatus.pending, none, 0, [1], "",
              none⟩] : List Task), u.id = d ∧
          u.status = TaskStatus.completed) :=
  ⟨by decide,
    C1_next_pending_task_spec
      [⟨1, "a", "c", "d", TaskStatus.completed, none, 0, [], "", none⟩,
       ⟨2, "b", "c", "d", TaskStatus.pending, none, 0, [1], "", none⟩]
      (by decide)⟩

/-- C10: a task listing a dependency id that no stored task carries is
never returned by the scheduler query, in any store with duplicate-free
ids — the missing id makes the count test unsatisfiable. -/
theorem C10_missing_dep_ineligible (tasks : List Task) (t : Task)
    (d : Nat) (hids : (tasks.map Task.id).Nodup)
    (hd : d ∈ t.dependencies) (hmiss : ∀ u ∈ tasks, u.id ≠ d) :
    get_next_pending_task tasks ≠ some t := by
  intro hsome
  rw [get_next_pending_task] at hsome
  have hmet := List.find?_some hsome
  have hne : ¬ t.dependencies.isEmpty = true := by
    cases hdep : t.dependencies with
    | nil =>
      rw [hdep] at hd
      cases hd
    | cons a l => simp [hdep]
  rw [dependencies_met, if_neg hne] at hmet
  have hlen : (tasks.filter (fun u =>
      t.dependencies.contains u.id &&
        u.status == TaskStatus.completed)).length
      = t.dependencies.length := by simpa using hmet
  have hFids : ((tasks.filter (fun u =>
      t.dependencies.contains u.id &&
        u.status == TaskStatus.completed)).map Task.id).Nodup :=
    hids.sublist ((List.filter_sublist tasks).map Task.id)
  have hsubF : ((tasks.filter (fun u =>
      t.dependencies.contains u.id &&
        u.status == TaskStatus.completed)).map Task.id).toFinset
      ⊆ t.dependencies.toFinset.erase d := by
    intro x hx
    rw [List.mem_toFinset] at hx
    obtain ⟨u, huF, rfl⟩ := List.mem_map.mp hx
    obtain ⟨humem, hprop⟩ := List.mem_filter.mp huF
    refine Finset.mem_erase.mpr ⟨hmiss u humem, ?_⟩
    rw [List.mem_toFinset]
    exact List.elem_iff.mp (band_split hprop).1
  have hcard : (tasks.filter (fun u =>
      t.dependencies.contains u.id &&
        u.status == TaskStatus.completed)).length
      ≤ t.dependencies.toFinset.card - 1 := by
    calc (tasks.filter (fun u =>
        t.dependencies.contains u.id &&
          u.status == TaskStatus.completed)).length
        = ((tasks.filter (fun u =>
            t.dependencies.contains u.id &&
              u.status == TaskStatus.completed)).map
                Task.id).toFinset.card := by
          rw [List.toFinset_card_of_nodup hFids, List.length_map]
      _ ≤ (t.dependencies.toFinset.erase d).card :=
          Finset.card_le_card hsubF
      _ = t.dependencies.toFinset.card - 1 :=
          Finset.card_erase_of_mem (List.mem_toFinset.mpr hd)
  have hcard2 : t.dependencies.toFinset.card ≤ t.dependencies.length :=
    List.toFinset_card_le _
  have hpos : 0 < t.dependencies.length := by
    cases hdep : t.dependencies with
    | nil =>
      rw [hdep] at hd
      cases hd
    | cons a l => simp [hdep]
  omega

/-- Witness for C10 on a one-task store whose only task lists the absent
dependency id 5. -/
theorem C10_witness :
    (([⟨1, "a", "c", "d", TaskStatus.pending, none, 0, [5], "", none⟩]
        : List Task).map Task.id).Nodup ∧
    5 ∈ (⟨1, "a", "c", "d", TaskStatus.pending, none, 0, [5], "", none⟩
        : Task).dependencies ∧
    (∀ u ∈ ([⟨1, "a", "c", "d", TaskStatus.pending, none, 0, [5], "",
        none⟩] : List Task), u.id ≠ 5) ∧
    get_next_pending_task
        [⟨1, "a", "c", "d", TaskStatus.pending, none, 0, [5], "", none⟩]
      ≠ some ⟨1, "a", "c", "d", TaskStatus.pending, none, 0, [5], "",
          none⟩ :=
  ⟨by decide, by decide, by decide,
    C10_missing_dep_ineligible
      [⟨1, "a", "c", "d", TaskStatus.pending, none, 0, [5], "", none⟩]
      ⟨1, "a", "c", "d", TaskStatus.pending, none, 0, [5], "", none⟩ 5
      (by decide) (by decide) (by decide)⟩

/-- Closed form of the always-reject fix cycle: entered at least two
increments below the retry bound with the persisted assignment pointing at
the agent, the recursion ends with the task BLOCKED and its assignment
cleared, the agent IDLE, the stored counter at the bound, and exactly
k + 1 further Worker invocations. -/
theorem handle_qa_rejection_closed (max_task_retries : Nat)
    (agent_id : String) :
    ∀ (k : Nat) (v : Option String) (s : FixCycleState),
      s.task_retries + 2 + k = max_task_retries →
      s.task_assigned = some agent_id →
      handle_qa_rejection max_task_retries agent_id v s
        = ⟨TaskStatus.blocked, max_task_retries, none, AgentStatus.idle,
           s.worker_calls + k + 1⟩ := by
  intro k
  induction k with
  | zero =>
    intro v s hk ha
    rw [handle_qa_rejection]
    have h1 : s.task_retries + 1 < max_task_retries := by omega
    rw [dif_pos h1]
    dsimp only
    rw [if_pos h1]
    rw [handle_qa_rejection]
    dsimp only
    have h2 : ¬ (s.task_retries + 1 + 1 < max_task_retries) := by omega
    rw [dif_neg h2]
    rw [block_task]
    dsimp only
    rw [ha]
    simp only [beq_self_eq_true, if_true]
    have h3 : s.task_retries + 1 + 1 = max_task_retries := by omega
    rw [h3]
  | succ k ih =>
    intro v s hk ha
    rw [handle_qa_rejection]
    have h1 : s.task_retries + 1 < max_task_retries := by omega
    rw [dif_pos h1]
    dsimp only
    rw [if_pos h1]
    rw [ha]
    rw [ih (some agent_id) _ (by dsimp only; omega) rfl]
    have h2 : s.worker_calls + 1 + k + 1 = s.worker_calls + (k + 1) + 1 :=
      by omega
    dsimp only
    rw [h2]

/-- Closed form of the full always-reject scenario from `_process_task`
for retry bounds of at least 2. -/
theorem process_task_closed (max_task_retries : Nat) (agent_id : String)
    (view_assigned0 : Option String) (hm : 2 ≤ max_task_retries) :
    process_task max_task_retries agent_id view_assigned0
      = ⟨TaskStatus.blocked, max_task_retries, none, AgentStatus.idle,
         max_task_retries⟩ := by
  rw [process_task]
  dsimp only
  rw [handle_qa_rejection_closed max_task_retries agent_id
    (max_task_retries - 2) view_assigned0 _ (by dsimp only; omega) rfl]
  have h1 : 0 + 1 + (max_task_retries - 2) + 1 = max_task_retries := by
    omega
  dsimp only
  rw [h1]

/-- C4 (amended): processing a task with a Worker capability that always
succeeds and a Reviewer capability that always rejects, with the
configured retry bound at least 2, ends with the task BLOCKED, the agent
IDLE, and the Worker capability invoked exactly `max_task_retries` times
in total — the initial attempt plus `max_task_retries - 1` fix
attempts. -/
theorem C4_fix_cycle_amended (max_task_retries : Nat) (agent_id : String)
    (view_assigned0 : Option String) (hm : 2 ≤ max_task_retries) :
    (process_task max_task_retries agent_id view_assigned0).task_status
        = TaskStatus.blocked ∧
    (process_task max_task_retries agent_id view_assigned0).agent_status
        = AgentStatus.idle ∧
    (process_task max_task_retries agent_id view_assigned0).worker_calls
        = max_task_retries := by
  rw [process_task_closed max_task_retries agent_id view_assigned0 hm]
  exact ⟨rfl, rfl, rfl⟩

/-- Counterexample to C4 as stated: at the configured retry bound the
always-reject scenario does end with the task BLOCKED and the agent IDLE,
but the Worker capability runs exactly `MAX_TASK_RETRIES` times, not
`MAX_TASK_RETRIES + 1` times. -/
theorem C4_counterexample :
    (process_task MAX_TASK_RETRIES ("coding-1") none).task_status
        = TaskStatus.blocked ∧
    (process_task MAX_TASK_RETRIES ("coding-1") none).agent_status
        = AgentStatus.idle ∧
    (process_task MAX_TASK_RETRIES ("coding-1") none).worker_calls
        = MAX_TASK_RETRIES ∧
    (process_task MAX_TASK_RETRIES ("coding-1") none).worker_calls
        ≠ MAX_TASK_RETRIES + 1 := by
  rw [process_task_closed MAX_TASK_RETRIES ("coding-1") none (by decide)]
  exact ⟨rfl, rfl, rfl, by decide⟩

/-- Witness for the amended C4 at the configured retry bound 3. -/
theorem C4_witness :
    2 ≤ (3 : Nat) ∧
    ((process_task 3 ("coding-1") none).task_status
        = TaskStatus.blocked ∧
     (process_task 3 ("coding-1") none).agent_status
        = AgentStatus.idle ∧
     (process_task 3 ("coding-1") none).worker_calls = 3) :=
  ⟨by decide, C4_fix_cycle_amended 3 ("coding-1") none (by decide)⟩

end Orch
